import Mathlib

set_option maxRecDepth 8192

deriving instance DecidableEq for Except

/-!
Shallow embedding of the DP100 power-supply driver (`dp100.py`) and proofs
about its frame codec, telemetry parsing, retry loop, settings update and
command dispatcher.  Byte strings are modelled as `List Nat` (Python `bytes`
elements are integers in `0..255`); fallible paths return `Option` and paths
that can raise a Python exception return `Except String`.
-/

/-! ## Checksum (`crc16`, dp100.py lines 14-20) -/

/-- One inner-loop iteration of `crc16`:
`crc = (crc >> 1) ^ poly if (crc & 0x0001) else crc >> 1`. -/
def crc16_round (poly crc : Nat) : Nat :=
  if crc &&& 0x0001 ≠ 0 then (crc >>> 1) ^^^ poly else crc >>> 1

/-- `n` iterations of the inner loop (the source runs it `for _ in range(8)`). -/
def crc16_rounds (poly : Nat) : Nat → Nat → Nat
  | 0, crc => crc
  | n + 1, crc => crc16_rounds poly n (crc16_round poly crc)

/-- Body of `crc16` for an explicit polynomial: start from `0xFFFF`, and for
each byte do `crc ^= byte` followed by eight rounds. -/
def crc16_with (poly : Nat) (data : List Nat) : Nat :=
  data.foldl (fun crc byte => crc16_rounds poly 8 (crc ^^^ byte)) 0xFFFF

/-- `crc16(data)` with the source's default polynomial `0xA001`. -/
def crc16 (data : List Nat) : Nat :=
  crc16_with 0xA001 data

/-! ## Frame codec (`send_frame` / `receive_frame`, dp100.py lines 139-185) -/

/-- The dictionary `receive_frame` returns on success:
`{"function_type": ..., "data": ...}`. -/
structure Response where
  function_type : Nat
  data : List Nat
deriving DecidableEq, Repr

/-- Frame construction of `send_frame` (lines 144-146):
`struct.pack("<BBBB", 251, function_type, 0, len(data)) + data` followed by the
16-bit checksum appended little-endian.  `struct.pack` raises unless every
`"<B"` value is a byte (`data` itself has byte elements by its Python type
`bytes`); `none` models that exception. -/
def send_frame_bytes (function_type : Nat) (data : List Nat) : Option (List Nat) :=
  if function_type < 256 ∧ data.length < 256 ∧ data.all (fun b => b < 256) = true then
    let frame := [251, function_type, 0, data.length] ++ data
    let checksum := crc16 frame
    some (frame ++ [checksum % 256, checksum / 256 % 256])
  else none

/-- Decoding step of `receive_frame` on one non-empty read (lines 172-179):
reject buffers shorter than 6 bytes, otherwise take the operation from byte 1,
the length from byte 3 and the payload slice `response[4 : 4 + data_len]`
(Python slices truncate at the end of the buffer). -/
def receive_frame (response : List Nat) : Option Response :=
  if response.length < 6 then none
  else some ⟨response.getD 1 0, (response.drop 4).take (response.getD 3 0)⟩

/-! ## Telemetry (`get_basic_info`, dp100.py lines 187-207) -/

/-- A little-endian 16-bit word read at byte offset `i`, as produced for each
`"<H"` field of `struct.unpack`. -/
def le16 (d : List Nat) (i : Nat) : Nat :=
  d.getD i 0 + 256 * d.getD (i + 1) 0

/-- The dictionary returned by `get_basic_info` on success.  Fixed-point fields
are exact rationals (the Python code divides by 100/1000/10). -/
structure BasicInfo where
  vin : ℚ
  vout : ℚ
  iout : ℚ
  power : ℚ
  temp1 : ℚ
  temp2 : ℚ
  dc_5v : ℚ
  status : Nat
deriving DecidableEq, Repr

/-- `get_basic_info`: sends the basic-info request (`send_ok` is whether
`send_frame(0x30, b"")` succeeded) and parses the response.  A snapshot is
returned only when the response echoes operation `0x30` with a 16-byte payload
(`struct.unpack("<HHHHHHHH", data)`); every other case returns `None`. -/
def get_basic_info (send_ok : Bool) (response : Option Response) : Option BasicInfo :=
  if send_ok then
    match response with
    | some r =>
      if r.function_type = 48 then
        if r.data.length = 16 then
          some ⟨(le16 r.data 0 : ℚ) / 100, (le16 r.data 2 : ℚ) / 1000,
                (le16 r.data 4 : ℚ) / 1000, (le16 r.data 6 : ℚ) / 100,
                (le16 r.data 8 : ℚ) / 10, (le16 r.data 10 : ℚ) / 10,
                (le16 r.data 12 : ℚ) / 1000, le16 r.data 14⟩
        else none
      else none
    | none => none
  else none

/-! ## Device identity (`get_device_info` / `parse_device_info`,
dp100.py lines 253-269) -/

/-- What the (stubbed) transport yields during one iteration of `set_output`'s
retry loop: the first `get_basic_info` state check, whether
`send_frame(0x35, ...)` succeeded, the `receive_frame` response, and the
verification `get_basic_info` readback. -/
structure AttemptEnv where
  info1 : Option BasicInfo
  send_ok : Bool
  response : Option Response
  info2 : Option BasicInfo
deriving DecidableEq, Repr

/-- Python `int(...)` on a number: truncation toward zero. -/
def int_trunc (q : ℚ) : Int :=
  if q < 0 then -Rat.floor (-q) else Rat.floor q

/-- `struct.pack("<BHHHH", ...)`: one byte and four little-endian 16-bit
words; `pack` raises `struct.error` when any value is out of range for its
code. -/
def struct_pack_BHHHH (b0 h1 h2 h3 h4 : Int) : Except String (List Nat) :=
  if 0 ≤ b0 ∧ b0 < 256 ∧ 0 ≤ h1 ∧ h1 < 65536 ∧ 0 ≤ h2 ∧ h2 < 65536 ∧
      0 ≤ h3 ∧ h3 < 65536 ∧ 0 ≤ h4 ∧ h4 < 65536 then
    Except.ok ([b0.toNat] ++ [h1.toNat % 256, h1.toNat / 256] ++
      [h2.toNat % 256, h2.toNat / 256] ++ [h3.toNat % 256, h3.toNat / 256] ++
      [h4.toNat % 256, h4.toNat / 256])
  else Except.error "struct.error: argument out of range"

/-- One iteration of the `set_output` loop body (lines 211-248): `continue`
on a failed state check; then build the request payload with
`struct.pack("<BHHHH", 0x20, 1, int(voltage * 1000), int(current * 1000),
0xFFFF)` (lines 220-222), whose `struct.error` for out-of-range targets
propagates uncaught; then `continue` on a failed send, missing response or
wrong echoed operation; otherwise succeed exactly when the readback exists and
both `abs(info["vout"] - voltage) < 0.1` and
`abs(info["iout"] - current) < 0.1`. -/
def attempt_step (voltage current : ℚ) (env : AttemptEnv) : Except String Bool :=
  match env.info1 with
  | none => Except.ok false
  | some _ =>
    match struct_pack_BHHHH 0x20 1 (int_trunc (voltage * 1000))
        (int_trunc (current * 1000)) 0xFFFF with
    | Except.error e => Except.error e
    | Except.ok _data =>
      if env.send_ok then
        match env.response with
        | none => Except.ok false
        | some r =>
          if r.function_type = 53 then
            match env.info2 with
            | none => Except.ok false
            | some info =>
              Except.ok (decide (|info.vout - voltage| < 1 / 10) &&
                decide (|info.iout - current| < 1 / 10))
          else Except.ok false
      else Except.ok false

/-- `set_output`'s `for attempt in range(max_retries)` loop over the per-attempt
transport environments (one entry per available attempt, so `max_retries` is
the list length).  On normal termination it returns the Python result together
with the number of attempts actually performed: `return True` leaves the loop
early, and falling off the loop returns `False`; a `struct.error` raised while
packing the setpoint propagates out of the loop. -/
def set_output (voltage current : ℚ) : List AttemptEnv → Except String (Bool × Nat)
  | [] => Except.ok (false, 0)
  | env :: rest =>
    match attempt_step voltage current env with
    | Except.error e => Except.error e
    | Except.ok true => Except.ok (true, 1)
    | Except.ok false =>
      match set_output voltage current rest with
      | Except.error e => Except.error e
      | Except.ok r => Except.ok (r.1, r.2 + 1)

/-! ## System settings (`get_settings` / `set_settings`,
dp100.py lines 271-342) -/

/-- A value stored in one of the settings dictionaries (Python is dynamically
typed: `get_settings` mixes ints, a float and a bool). -/
inductive SettingVal
  | nat (n : Nat)
  | rat (q : ℚ)
  | bool (b : Bool)
deriving DecidableEq, Repr

/-- Python `dict[key]` lookup: `KeyError` when the key is absent. -/
def dict_get (d : List (String × SettingVal)) (k : String) : Except String SettingVal :=
  match d.find? (fun p => p.1 == k) with
  | some p => Except.ok p.2
  | none => Except.error ("KeyError: " ++ k)

/-- `get_settings` (lines 271-289): one exchange on operation `0x37`; a payload
of at least 8 bytes is unpacked with `struct.unpack("<BBHHHB", data[:9])` —
which itself raises `struct.error` when fewer than the 9 required bytes are
available — into the six-key dictionary built at lines 280-287. -/
def get_settings (send_ok : Bool) (response : Option Response) :
    Except String (Option (List (String × SettingVal))) :=
  if send_ok then
    match response with
    | some r =>
      if r.function_type = 55 then
        if 8 ≤ r.data.length then
          if 9 ≤ r.data.length then
            Except.ok (some
              [("backlight", SettingVal.nat (r.data.getD 0 0)),
               ("key_sound", SettingVal.nat (r.data.getD 1 0)),
               ("over_power_protection", SettingVal.rat ((le16 r.data 2 : ℚ) / 10)),
               ("over_temperature_protection", SettingVal.nat (le16 r.data 4)),
               ("reverse_protection", SettingVal.bool (le16 r.data 6 ≠ 0)),
               ("power_on_state", SettingVal.nat (r.data.getD 8 0))])
          else Except.error "struct.error: unpack requires a buffer of 9 bytes"
        else Except.ok none
      else Except.ok none
    | none => Except.ok none
  else Except.ok none

/-- One merged field of `set_settings` (lines 302-317):
`x if x is not None else current_settings["..."]`. -/
def merge_field (given : Option SettingVal) (current : List (String × SettingVal))
    (key : String) : Except String SettingVal :=
  match given with
  | some v => Except.ok v
  | none => dict_get current key

/-- The value a merged settings field contributes to `struct.pack`, as a Python
integer (a bool packs as 0/1). -/
def sv_int : SettingVal → Int
  | SettingVal.nat n => n
  | SettingVal.rat q => if q < 0 then -Rat.floor (-q) else Rat.floor q
  | SettingVal.bool b => if b then 1 else 0

/-- The merged field as a Python number, for `int(opp * 10)`. -/
def sv_rat : SettingVal → ℚ
  | SettingVal.nat n => n
  | SettingVal.rat q => q
  | SettingVal.bool b => if b then 1 else 0

/-- `struct.pack("<BBHHHBB", ...)`: the format has seven codes, so `pack`
raises `struct.error` unless exactly seven values are supplied, and each value
must be in range for its code (`B`: one byte, `H`: two bytes little-endian). -/
def struct_pack_BBHHHBB (vals : List Int) : Except String (List Nat) :=
  match vals with
  | [b0, b1, h2, h3, h4, b5, b6] =>
    if 0 ≤ b0 ∧ b0 < 256 ∧ 0 ≤ b1 ∧ b1 < 256 ∧
        0 ≤ h2 ∧ h2 < 65536 ∧ 0 ≤ h3 ∧ h3 < 65536 ∧ 0 ≤ h4 ∧ h4 < 65536 ∧
        0 ≤ b5 ∧ b5 < 256 ∧ 0 ≤ b6 ∧ b6 < 256 then
      Except.ok ([b0.toNat, b1.toNat] ++
        [h2.toNat % 256, h2.toNat / 256] ++ [h3.toNat % 256, h3.toNat / 256] ++
        [h4.toNat % 256, h4.toNat / 256] ++ [b5.toNat, b6.toNat])
    else Except.error "struct.error: argument out of range"
  | _ => Except.error "struct.error: pack expected 7 items for packing (got 6)"

/-- `set_settings` (lines 291-342).  `current_settings` is the result of the
`get_settings` call at line 300; each keyword argument is `None` when the
caller omitted it.  The merge at lines 302-317 looks absent fields up in
`current_settings` under the keys `"volume"`, `"opp"`, `"otp"`,
`"reverse_protect"`, `"auto_output"`; the merged record is packed at lines
319-327 with format `"<BBHHHBB"` over six values; the response must echo
operation `0x38` with first payload byte 1 (`response["data"][0]` raises
`IndexError` on an empty payload). -/
def set_settings (backlight volume opp otp reverse_protect auto_output : Option SettingVal)
    (current_settings : Option (List (String × SettingVal)))
    (send_ok : Bool) (response : Option Response) : Except String Bool :=
  match current_settings with
  | none => Except.ok false
  | some cs => do
    let bl ← merge_field backlight cs "backlight"
    let vo ← merge_field volume cs "volume"
    let op ← merge_field opp cs "opp"
    let ot ← merge_field otp cs "otp"
    let rp ← merge_field reverse_protect cs "reverse_protect"
    let ao ← merge_field auto_output cs "auto_output"
    let _data ← struct_pack_BBHHHBB
      [sv_int bl, sv_int vo, int_trunc (sv_rat op * 10), sv_int ot, sv_int rp, sv_int ao]
    if send_ok then
      match response with
      | none => Except.ok false
      | some r =>
        if r.function_type = 56 then
          match r.data with
          | [] => Except.error "IndexError: index out of range"
          | d0 :: _ => Except.ok (d0 == 1)
        else Except.ok false
    else Except.ok false

/-! ## Command dispatcher (`_execute_command`, dp100.py lines 43-56 and 93-99) -/

/-- The `_execute_command` that actually runs.  The class body defines
`_execute_command` twice; in Python the later definition (lines 93-99) replaces
the abort-aware loop at lines 43-56, so the effective method sends the frame
and, on success, performs one `receive_frame` call unconditionally.
`abort_flag` is the state of `self._abort_flag`; the result pairs the value put
on the response queue with the number of `receive_frame` reads issued. -/
def execute_command (abort_flag : Bool) (send_ok : Bool)
    (received : Option Response) : Option Response × Nat :=
  if send_ok then (received, 1) else (none, 0)

/-! ## Helper lemmas -/

/-- Decoding a well-formed frame shape: whatever the two trailing bytes are,
`receive_frame` returns the operation byte and the payload. -/
theorem receive_frame_frame_shape (op : Nat) (b : List Nat) (c1 c2 : Nat) :
    receive_frame ([251, op, 0, b.length] ++ b ++ [c1, c2]) = some ⟨op, b⟩ := by
  have hlen : ([251, op, 0, b.length] ++ b ++ [c1, c2]).length = b.length + 6 := by
    simp [List.length_append]
  unfold receive_frame
  rw [if_neg (by omega)]
  have hdrop : (([251, op, 0, b.length] ++ b ++ [c1, c2]).drop 4) = b ++ [c1, c2] := by
    simp [List.append_assoc]
  have hget1 : ([251, op, 0, b.length] ++ b ++ [c1, c2]).getD 1 0 = op := by
    simp [List.append_assoc, List.getD]
  have hget3 : ([251, op, 0, b.length] ++ b ++ [c1, c2]).getD 3 0 = b.length := by
    simp [List.append_assoc, List.getD]
  rw [hdrop, hget1, hget3, List.take_left]

/-! ## Claims about the frame codec -/

/-- Claim C1 counterexample: the buffer `FB 30 00 00 00 00` carries the
little-endian checksum value 0, which differs from the CRC-16 recomputed over
its header and (empty) payload, yet `receive_frame` does not return `None`
— it exposes the decoded frame to the caller. -/
theorem receive_frame_accepts_crc_mismatch :
    crc16 [0xFB, 0x30, 0x00, 0x00] ≠ 0 ∧
    receive_frame [0xFB, 0x30, 0x00, 0x00, 0x00, 0x00] =
      some ⟨0x30, []⟩ := by
  decide

/-- Claim C1 (amended): `receive_frame` performs no CRC validation at all: a
frame-shaped buffer decodes to its operation byte and payload whatever its two
trailing checksum bytes are, matching or not. -/
theorem receive_frame_no_crc_check :
    ∀ (op : Nat) (b : List Nat) (c1 c2 : Nat),
      receive_frame ([251, op, 0, b.length] ++ b ++ [c1, c2]) = some ⟨op, b⟩ :=
  fun op b c1 c2 => receive_frame_frame_shape op b c1 c2

/-- Claim C2: `crc16` starts from register `0xFFFF`, processes one byte at a
time with eight shift rounds of polynomial `0xA001` per byte and applies no
final XOR; encoding operation `0x30` with an empty payload yields exactly the
header `FB 30 00 00` followed by that CRC-16 of the header (`0x0F31`) appended
little-endian. -/
theorem crc16_algorithm_and_frame_example :
    crc16 [] = 0xFFFF ∧
    (∀ (data : List Nat) (b : Nat),
      crc16 (data ++ [b]) = crc16_rounds 0xA001 8 (crc16 data ^^^ b)) ∧
    send_frame_bytes 0x30 [] = some [0xFB, 0x30, 0x00, 0x00, 0x31, 0x0F] ∧
    0x31 + 256 * 0x0F = crc16 [0xFB, 0x30, 0x00, 0x00] := by
  refine ⟨rfl, ?_, by decide, by decide⟩
  intro data b
  simp [crc16, crc16_with, List.foldl_append]

/-- Claim C3 counterexample: the 6-byte buffer `FB 30 00 0A 00 00` declares a
10-byte payload, so its total length 6 is smaller than `4 + length + 2 = 16`;
the claim demands `None`, but `receive_frame` decodes it, returning the two
available bytes as payload. -/
theorem receive_frame_accepts_overrun_length :
    ([251, 48, 0, 10, 0, 0] : List Nat).length <
      4 + ([251, 48, 0, 10, 0, 0] : List Nat).getD 3 0 + 2 ∧
    receive_frame [251, 48, 0, 10, 0, 0] = some ⟨48, [0, 0]⟩ := by
  decide

/-- Claim C3 (amended): `receive_frame` returns `None` on every buffer shorter
than 6 bytes, and it never reads past the end of the buffer — every payload it
returns is a contiguous slice of the buffer that ends within it — but it does
not check `len >= 4 + length + 2`: a buffer of length at least 6 whose length
byte overruns the buffer is still decoded, with the payload truncated at the
buffer end. -/
theorem receive_frame_truncation_behavior :
    (∀ buf : List Nat, buf.length < 6 → receive_frame buf = none) ∧
    (∀ (buf : List Nat) (r : Response), receive_frame buf = some r →
      r.data = (buf.drop 4).take (buf.getD 3 0) ∧
      r.data.length + 4 ≤ buf.length ∧
      ∃ s t, buf = s ++ r.data ++ t) := by
  constructor
  · intro buf h
    simp [receive_frame, h]
  · intro buf r h
    unfold receive_frame at h
    by_cases h6 : buf.length < 6
    · rw [if_pos h6] at h
      exact Option.noConfusion h
    · rw [if_neg h6] at h
      injection h with h'
      subst h'
      refine ⟨rfl, ?_, ?_⟩
      · show ((buf.drop 4).take (buf.getD 3 0)).length + 4 ≤ buf.length
        have h1 : ((buf.drop 4).take (buf.getD 3 0)).length =
            min (buf.getD 3 0) (buf.length - 4) := by
          rw [List.length_take, List.length_drop]
        have h2 : 6 ≤ buf.length := Nat.not_lt.mp h6
        have h3 := Nat.min_le_right (buf.getD 3 0) (buf.length - 4)
        omega
      · refine ⟨buf.take 4, (buf.drop 4).drop (buf.getD 3 0), ?_⟩
        rw [List.append_assoc, List.take_append_drop, List.take_append_drop]

/-- Witness for claim C3's amended theorem: a 3-byte buffer is rejected, and
the decoded payload of `FB 30 00 01 09 00 00` is the in-bounds slice `[9]`. -/
theorem receive_frame_truncation_behavior_witness :
    receive_frame [1, 2, 3] = none ∧
    (([9] : List Nat) = (([251, 48, 0, 1, 9, 0, 0] : List Nat).drop 4).take
        (([251, 48, 0, 1, 9, 0, 0] : List Nat).getD 3 0) ∧
      ([9] : List Nat).length + 4 ≤ ([251, 48, 0, 1, 9, 0, 0] : List Nat).length ∧
      ∃ s t, ([251, 48, 0, 1, 9, 0, 0] : List Nat) = s ++ [9] ++ t) :=
  ⟨receive_frame_truncation_behavior.1 [1, 2, 3] (by decide),
   receive_frame_truncation_behavior.2 [251, 48, 0, 1, 9, 0, 0] ⟨48, [9]⟩ (by decide)⟩

/-- Claim C4: round-trip — for every operation byte and every payload of at
most 255 bytes, building the frame with `send_frame` and decoding it with
`receive_frame` returns exactly the original operation and payload. -/
theorem send_receive_roundtrip :
    ∀ (op : Nat) (b : List Nat), op < 256 → b.length < 256 →
      b.all (fun x => x < 256) = true →
      (send_frame_bytes op b).bind receive_frame = some ⟨op, b⟩ := by
  intro op b hop hlen hall
  have hguard : op < 256 ∧ b.length < 256 ∧ b.all (fun x => x < 256) = true :=
    ⟨hop, hlen, hall⟩
  rw [send_frame_bytes, if_pos hguard]
  show receive_frame (([251, op, 0, b.length] ++ b) ++ [_, _]) = some ⟨op, b⟩
  rw [List.append_assoc]
  exact receive_frame_frame_shape op b _ _

/-- Witness for claim C4: a concrete round-trip through the codec. -/
theorem send_receive_roundtrip_witness :
    (send_frame_bytes 48 [7, 8]).bind receive_frame = some ⟨48, [7, 8]⟩ :=
  send_receive_roundtrip 48 [7, 8] (by decide) (by decide) (by decide)

/-- Claim C10: for every buffer of at least 6 bytes, `receive_frame` accepts
and returns the operation byte at index 1 and the payload slice starting at
index 4 of length given by byte 3 — the marker byte, reserved byte and the
trailing checksum bytes are never inspected, so acceptance depends only on the
buffer's length. -/
theorem receive_frame_accepts_any_long_buffer :
    ∀ buf : List Nat, 6 ≤ buf.length →
      receive_frame buf = some ⟨buf.getD 1 0, (buf.drop 4).take (buf.getD 3 0)⟩ := by
  intro buf h
  simp [receive_frame, Nat.not_lt.mpr h]

/-- Witness for claim C10: a buffer whose marker byte is not `0xFB` and whose
checksum bytes are garbage still decodes. -/
theorem receive_frame_accepts_any_long_buffer_witness :
    receive_frame [0, 7, 0, 2, 4, 5, 9, 9] = some ⟨7, [4, 5]⟩ :=
  receive_frame_accepts_any_long_buffer [0, 7, 0, 2, 4, 5, 9, 9] (by decide)

/-! ## Claims about telemetry and identity parsing -/

/-- Claim C8: `get_basic_info` returns a fully populated snapshot exactly when
the send succeeded and the response echoes operation `0x30` with a 16-byte
payload, unpacking eight little-endian fixed-point words; in every other case
(failed send, no response, wrong operation, wrong payload size) it returns
`None` and never a partially populated snapshot. -/
theorem get_basic_info_all_or_nothing :
    (∀ r : Response, r.function_type = 48 → r.data.length = 16 →
      get_basic_info true (some r) = some
        ⟨(le16 r.data 0 : ℚ) / 100, (le16 r.data 2 : ℚ) / 1000,
         (le16 r.data 4 : ℚ) / 1000, (le16 r.data 6 : ℚ) / 100,
         (le16 r.data 8 : ℚ) / 10, (le16 r.data 10 : ℚ) / 10,
         (le16 r.data 12 : ℚ) / 1000, le16 r.data 14⟩) ∧
    (∀ response : Option Response, get_basic_info false response = none) ∧
    (∀ send_ok : Bool, get_basic_info send_ok none = none) ∧
    (∀ (send_ok : Bool) (r : Response),
      r.function_type ≠ 48 ∨ r.data.length ≠ 16 →
      get_basic_info send_ok (some r) = none) := by
  refine ⟨?_, ?_, ?_, ?_⟩
  · intro r h48 h16
    simp [get_basic_info, h48, h16]
  · intro response
    simp [get_basic_info]
  · intro send_ok
    cases send_ok <;> simp [get_basic_info]
  · intro send_ok r h
    cases send_ok
    · simp [get_basic_info]
    · rcases h with h | h <;> simp [get_basic_info, h]

/-- Witness for claim C8: a concrete 16-byte payload is fully unpacked, and a
response echoing the wrong operation yields `None`. -/
theorem get_basic_info_all_or_nothing_witness :
    get_basic_info true (some ⟨48, [0, 1, 208, 7, 232, 3, 44, 1, 250, 0, 4, 1, 226, 19, 3, 0]⟩) =
      some ⟨(le16 [0, 1, 208, 7, 232, 3, 44, 1, 250, 0, 4, 1, 226, 19, 3, 0] 0 : ℚ) / 100,
            (le16 [0, 1, 208, 7, 232, 3, 44, 1, 250, 0, 4, 1, 226, 19, 3, 0] 2 : ℚ) / 1000,
            (le16 [0, 1, 208, 7, 232, 3, 44, 1, 250, 0, 4, 1, 226, 19, 3, 0] 4 : ℚ) / 1000,
            (le16 [0, 1, 208, 7, 232, 3, 44, 1, 250, 0, 4, 1, 226, 19, 3, 0] 6 : ℚ) / 100,
            (le16 [0, 1, 208, 7, 232, 3, 44, 1, 250, 0, 4, 1, 226, 19, 3, 0] 8 : ℚ) / 10,
            (le16 [0, 1, 208, 7, 232, 3, 44, 1, 250, 0, 4, 1, 226, 19, 3, 0] 10 : ℚ) / 10,
            (le16 [0, 1, 208, 7, 232, 3, 44, 1, 250, 0, 4, 1, 226, 19, 3, 0] 12 : ℚ) / 1000,
            le16 [0, 1, 208, 7, 232, 3, 44, 1, 250, 0, 4, 1, 226, 19, 3, 0] 14⟩ ∧
    get_basic_info true (some ⟨49, [0, 1, 208, 7, 232, 3, 44, 1, 250, 0, 4, 1, 226, 19, 3, 0]⟩) = none :=
  ⟨get_basic_info_all_or_nothing.1 ⟨48, [0, 1, 208, 7, 232, 3, 44, 1, 250, 0, 4, 1, 226, 19, 3, 0]⟩
      rfl (by decide),
   get_basic_info_all_or_nothing.2.2.2 true ⟨49, [0, 1, 208, 7, 232, 3, 44, 1, 250, 0, 4, 1, 226, 19, 3, 0]⟩
      (Or.inl (by decide))⟩

/-- Claim C7 (code evaluated at the failing scenario): the `_execute_command`
that actually runs — the second definition in the class body, which shadows
the abort-aware receive-wait loop — never consults the abort flag: with the
abort flag set it still issues a transport read (read count 1, not 0) and
still reports the received frame instead of the aborted outcome `None`. -/
theorem execute_command_ignores_abort :
    ∀ r : Response,
      execute_command true true (some r) = (some r, 1) ∧
      execute_command true true (some r) = execute_command false true (some r) := by
  intro r
  exact ⟨rfl, rfl⟩

/-! ## Claim about the setpoint retry loop -/

/-- `int(...)` of a nonnegative whole number: `int_trunc` on a natural-number
value is that value. -/
theorem int_trunc_coe_nat (n : ℕ) : int_trunc (n : ℚ) = n := by
  unfold int_trunc
  rw [if_neg (not_lt.mpr (by positivity : (0 : ℚ) ≤ (n : ℚ)))]
  rw [Rat.floor_def']
  simp

/-- Evaluation form of `int_trunc_coe_nat` for concrete products. -/
theorem int_trunc_eq_coe (q : ℚ) (n : ℕ) (h : q = (n : ℚ)) : int_trunc q = n := by
  rw [h, int_trunc_coe_nat]

/-- Claim C5 counterexample: for the target voltage 100, `int(voltage * 1000)`
is 100000, out of range for a `"<H"` code, so the very first attempt raises
`struct.error` while packing the setpoint: with one fully acknowledging,
out-of-tolerance attempt environment (`maxAttempts = 1`) `set_output` does not
perform its attempts and return `False` — it propagates the exception. -/
theorem set_output_raises_on_out_of_range_target :
    set_output 100 1 [AttemptEnv.mk (some (BasicInfo.mk 0 0 0 0 0 0 0 0)) true
        (some (Response.mk 53 [])) (some (BasicInfo.mk 0 0 0 0 0 0 0 0))] =
      Except.error "struct.error: argument out of range" ∧
    set_output 100 1 [AttemptEnv.mk (some (BasicInfo.mk 0 0 0 0 0 0 0 0)) true
        (some (Response.mk 53 [])) (some (BasicInfo.mk 0 0 0 0 0 0 0 0))] ≠
      Except.ok (false, 1) := by
  have hv100 : int_trunc ((100 : ℚ) * 1000) = 100000 :=
    int_trunc_eq_coe ((100 : ℚ) * 1000) 100000 (by norm_num)
  have hpack : struct_pack_BHHHH 0x20 1 (int_trunc ((100 : ℚ) * 1000))
      (int_trunc (1000 : ℚ)) 0xFFFF =
      Except.error "struct.error: argument out of range" := by
    rw [hv100]
    unfold struct_pack_BHHHH
    rw [if_neg]
    intro hc
    exact absurd hc.2.2.2.2.2.1 (by norm_num)
  have hstep : attempt_step 100 1 (AttemptEnv.mk (some (BasicInfo.mk 0 0 0 0 0 0 0 0)) true
      (some (Response.mk 53 [])) (some (BasicInfo.mk 0 0 0 0 0 0 0 0))) =
      Except.error "struct.error: argument out of range" := by
    simp [attempt_step, hpack]
  constructor
  · simp [set_output, hstep]
  · simp [set_output, hstep]

/-- With both scaled targets in `"<H"` range, the setpoint payload packs. -/
theorem struct_pack_setpoint_ok (voltage current : ℚ)
    (hv0 : 0 ≤ int_trunc (voltage * 1000)) (hv1 : int_trunc (voltage * 1000) < 65536)
    (hc0 : 0 ≤ int_trunc (current * 1000)) (hc1 : int_trunc (current * 1000) < 65536) :
    ∃ bs, struct_pack_BHHHH 0x20 1 (int_trunc (voltage * 1000))
        (int_trunc (current * 1000)) 0xFFFF = Except.ok bs := by
  unfold struct_pack_BHHHH
  exact ⟨_, if_pos ⟨by norm_num, by norm_num, by norm_num, by norm_num,
    hv0, hv1, hc0, hc1, by norm_num, by norm_num⟩⟩

/-- An attempt with packable targets whose exchange is acknowledged on
operation `0x35` but whose readback (if any) is out of tolerance on voltage or
current fails without raising. -/
theorem attempt_step_out_of_tolerance (voltage current : ℚ) (e : AttemptEnv)
    (hv0 : 0 ≤ int_trunc (voltage * 1000)) (hv1 : int_trunc (voltage * 1000) < 65536)
    (hc0 : 0 ≤ int_trunc (current * 1000)) (hc1 : int_trunc (current * 1000) < 65536)
    (h1 : e.info1.isSome = true) (hs : e.send_ok = true)
    (hr : ∃ r, e.response = some r ∧ r.function_type = 53)
    (h2 : ∀ info, e.info2 = some info →
      1 / 10 ≤ |info.vout - voltage| ∨ 1 / 10 ≤ |info.iout - current|) :
    attempt_step voltage current e = Except.ok false := by
  obtain ⟨r, hr1, hr2⟩ := hr
  obtain ⟨i1, hi1⟩ := Option.isSome_iff_exists.mp h1
  obtain ⟨bs, hbs⟩ := struct_pack_setpoint_ok voltage current hv0 hv1 hc0 hc1
  rcases hi2 : e.info2 with _ | info
  · simp [attempt_step, hi1, hbs, hs, hr1, hr2, hi2]
  · rcases h2 info hi2 with h | h
    · simp [attempt_step, hi1, hbs, hs, hr1, hr2, hi2]
      intro hlt
      linarith
    · simp [attempt_step, hi1, hbs, hs, hr1, hr2, hi2]
      intro hlt
      linarith

/-- An acknowledged attempt with packable targets whose readback is within
tolerance on both fields succeeds. -/
theorem attempt_step_within_tolerance (voltage current : ℚ) (e : AttemptEnv)
    (info : BasicInfo)
    (hv0 : 0 ≤ int_trunc (voltage * 1000)) (hv1 : int_trunc (voltage * 1000) < 65536)
    (hc0 : 0 ≤ int_trunc (current * 1000)) (hc1 : int_trunc (current * 1000) < 65536)
    (h1 : e.info1.isSome = true) (hs : e.send_ok = true)
    (hr : ∃ r, e.response = some r ∧ r.function_type = 53)
    (h2 : e.info2 = some info)
    (hv : |info.vout - voltage| < 1 / 10) (hi : |info.iout - current| < 1 / 10) :
    attempt_step voltage current e = Except.ok true := by
  obtain ⟨r, hr1, hr2⟩ := hr
  obtain ⟨i1, hi1⟩ := Option.isSome_iff_exists.mp h1
  obtain ⟨bs, hbs⟩ := struct_pack_setpoint_ok voltage current hv0 hv1 hc0 hc1
  simp [attempt_step, hi1, hbs, hs, hr1, hr2, h2]
  constructor <;> linarith

/-- Unfolding `set_output` over one failing (non-raising) attempt. -/
theorem set_output_cons_fail (voltage current : ℚ) (p : AttemptEnv)
    (l : List AttemptEnv) (hp : attempt_step voltage current p = Except.ok false) :
    set_output voltage current (p :: l) =
      match set_output voltage current l with
      | Except.error e => Except.error e
      | Except.ok r => Except.ok (r.1, r.2 + 1) := by
  simp [set_output, hp]

/-- When every available attempt fails without raising, the loop runs them all
and returns `False`. -/
theorem set_output_of_all_attempts_fail (voltage current : ℚ) :
    ∀ envs : List AttemptEnv,
      (∀ e ∈ envs, attempt_step voltage current e = Except.ok false) →
      set_output voltage current envs = Except.ok (false, envs.length) := by
  intro envs
  induction envs with
  | nil => intro _; rfl
  | cons e rest ih =>
    intro h
    have he : attempt_step voltage current e = Except.ok false :=
      h e (List.mem_cons_self e rest)
    have hrest := ih (fun e' he' => h e' (List.mem_cons_of_mem e he'))
    simp [set_output, he, hrest]

/-- Claim C5 (amended): for targets whose scaled wire values
`int(voltage * 1000)` and `int(current * 1000)` lie in `0..65535` — so that
the setpoint packs instead of raising `struct.error` — with a transport that
always acknowledges the setpoint-apply operation `0x35`: if every readback is
at least 0.1 away from the requested voltage or current then `set_output`
performs exactly `max_retries` attempts (one per available attempt
environment) and returns `False`; and whenever the first acknowledged attempt
after any run of failing attempts has a readback within 0.1 of both requested
values, it returns `True` right there, with no further attempts. -/
theorem set_output_retry_and_convergence :
    (∀ (voltage current : ℚ) (envs : List AttemptEnv),
      0 ≤ int_trunc (voltage * 1000) → int_trunc (voltage * 1000) < 65536 →
      0 ≤ int_trunc (current * 1000) → int_trunc (current * 1000) < 65536 →
      1 ≤ envs.length →
      (∀ e ∈ envs, e.info1.isSome = true ∧ e.send_ok = true ∧
        (∃ r, e.response = some r ∧ r.function_type = 53) ∧
        (∀ info, e.info2 = some info →
          1 / 10 ≤ |info.vout - voltage| ∨ 1 / 10 ≤ |info.iout - current|)) →
      set_output voltage current envs = Except.ok (false, envs.length)) ∧
    (∀ (voltage current : ℚ) (pre : List AttemptEnv) (e : AttemptEnv)
        (rest : List AttemptEnv) (info : BasicInfo),
      0 ≤ int_trunc (voltage * 1000) → int_trunc (voltage * 1000) < 65536 →
      0 ≤ int_trunc (current * 1000) → int_trunc (current * 1000) < 65536 →
      (∀ e' ∈ pre, attempt_step voltage current e' = Except.ok false) →
      e.info1.isSome = true → e.send_ok = true →
      (∃ r, e.response = some r ∧ r.function_type = 53) →
      e.info2 = some info →
      |info.vout - voltage| < 1 / 10 → |info.iout - current| < 1 / 10 →
      set_output voltage current (pre ++ e :: rest) =
        Except.ok (true, pre.length + 1)) := by
  constructor
  · intro voltage current envs hv0 hv1 hc0 hc1 _ h
    refine set_output_of_all_attempts_fail voltage current envs (fun e he => ?_)
    obtain ⟨h1, hs, hr, h2⟩ := h e he
    exact attempt_step_out_of_tolerance voltage current e hv0 hv1 hc0 hc1 h1 hs hr h2
  · intro voltage current pre e rest info hv0 hv1 hc0 hc1 hpre h1 hs hr h2 hv hi
    have hok : attempt_step voltage current e = Except.ok true :=
      attempt_step_within_tolerance voltage current e info hv0 hv1 hc0 hc1 h1 hs hr h2 hv hi
    induction pre with
    | nil => simp [set_output, hok]
    | cons p pre' ih =>
      have hp : attempt_step voltage current p = Except.ok false :=
        hpre p (List.mem_cons_self p pre')
      have ih' := ih (fun e' he' => hpre e' (List.mem_cons_of_mem p he'))
      calc set_output voltage current ((p :: pre') ++ e :: rest)
          = match set_output voltage current (pre' ++ e :: rest) with
            | Except.error e => Except.error e
            | Except.ok r => Except.ok (r.1, r.2 + 1) :=
            set_output_cons_fail voltage current p (pre' ++ e :: rest) hp
        _ = Except.ok (true, pre'.length + 1 + 1) := by rw [ih']
        _ = Except.ok (true, (p :: pre').length + 1) := by simp

/-- Witness for claim C5's amended theorem: at the target 5 V / 1 A, one
always-acknowledging attempt whose readback is 5 V / 1 A away exhausts the
single attempt and fails, while a readback equal to the request succeeds on
the first attempt. -/
theorem set_output_retry_and_convergence_witness :
    set_output 5 1 [AttemptEnv.mk (some (BasicInfo.mk 0 0 0 0 0 0 0 0)) true
        (some (Response.mk 53 [])) (some (BasicInfo.mk 0 0 0 0 0 0 0 0))] =
      Except.ok (false, 1) ∧
    set_output 5 1 [AttemptEnv.mk (some (BasicInfo.mk 0 0 0 0 0 0 0 0)) true
        (some (Response.mk 53 [])) (some (BasicInfo.mk 0 5 1 0 0 0 0 0))] =
      Except.ok (true, 1) := by
  constructor
  · refine set_output_retry_and_convergence.1 5 1 _
      (by rw [int_trunc_eq_coe ((5 : ℚ) * 1000) 5000 (by norm_num)]; norm_num)
      (by rw [int_trunc_eq_coe ((5 : ℚ) * 1000) 5000 (by norm_num)]; norm_num)
      (by rw [int_trunc_eq_coe ((1 : ℚ) * 1000) 1000 (by norm_num)]; norm_num)
      (by rw [int_trunc_eq_coe ((1 : ℚ) * 1000) 1000 (by norm_num)]; norm_num)
      (by decide) ?_
    intro e he
    rw [List.mem_singleton] at he
    subst he
    refine ⟨rfl, rfl, ⟨Response.mk 53 [], rfl, rfl⟩, ?_⟩
    intro info hinfo
    injection hinfo with hinfo
    subst hinfo
    left
    show (1 / 10 : ℚ) ≤ |(0 : ℚ) - 5|
    rw [show ((0 : ℚ) - 5) = -5 by norm_num, abs_neg,
      abs_of_nonneg (by norm_num : (0 : ℚ) ≤ 5)]
    norm_num
  · refine set_output_retry_and_convergence.2 5 1 [] _ [] (BasicInfo.mk 0 5 1 0 0 0 0 0)
      (by rw [int_trunc_eq_coe ((5 : ℚ) * 1000) 5000 (by norm_num)]; norm_num)
      (by rw [int_trunc_eq_coe ((5 : ℚ) * 1000) 5000 (by norm_num)]; norm_num)
      (by rw [int_trunc_eq_coe ((1 : ℚ) * 1000) 1000 (by norm_num)]; norm_num)
      (by rw [int_trunc_eq_coe ((1 : ℚ) * 1000) 1000 (by norm_num)]; norm_num)
      (fun e' he' => absurd he' (List.not_mem_nil e')) rfl rfl
      ⟨Response.mk 53 [], rfl, rfl⟩ rfl ?_ ?_
    · show |(5 : ℚ) - 5| < 1 / 10
      rw [show ((5 : ℚ) - 5) = 0 by norm_num, abs_zero]
      norm_num
    · show |(1 : ℚ) - 1| < 1 / 10
      rw [show ((1 : ℚ) - 1) = 0 by norm_num, abs_zero]
      norm_num

/-! ## Claim about the settings update -/

/-- Claim C6 (code evaluated at the failing input): updating only the
backlight field raises `KeyError: volume` instead of merging.  For every
fetched settings record — whatever `get_settings` successfully returned —
`set_settings` with only `backlight` supplied dies looking up the key
`"volume"`, because `get_settings` builds the record under the keys
`"key_sound"`, `"over_power_protection"`, `"over_temperature_protection"`,
`"reverse_protection"`, `"power_on_state"` while `set_settings` reads
`"volume"`, `"opp"`, `"otp"`, `"reverse_protect"`, `"auto_output"`. -/
theorem set_settings_raises_key_error :
    ∀ (r : Response) (cs : List (String × SettingVal)),
      r.function_type = 55 → 9 ≤ r.data.length →
      get_settings true (some r) = Except.ok (some cs) →
      set_settings (some (SettingVal.nat 2)) none none none none none
        (some cs) true (some (Response.mk 56 [1])) =
        Except.error "KeyError: volume" := by
  intro r cs h55 h9 hget
  have h8 : 8 ≤ r.data.length := by omega
  simp [get_settings, h55, h8, h9] at hget
  subst hget
  rfl

/-- Witness for claim C6's theorem: a concrete settings response (backlight 1,
key-sound 1, OPP 0, OTP 80, reverse protection on, power-on state 0) is
fetched successfully, and the backlight-only update then raises
`KeyError: volume`. -/
theorem set_settings_raises_key_error_witness :
    set_settings (some (SettingVal.nat 2)) none none none none none
      (some [("backlight", SettingVal.nat 1), ("key_sound", SettingVal.nat 1),
             ("over_power_protection", SettingVal.rat 0),
             ("over_temperature_protection", SettingVal.nat 80),
             ("reverse_protection", SettingVal.bool true),
             ("power_on_state", SettingVal.nat 0)])
      true (some (Response.mk 56 [1])) = Except.error "KeyError: volume" :=
  set_settings_raises_key_error (Response.mk 55 [1, 1, 0, 0, 80, 0, 1, 0, 0])
    [("backlight", SettingVal.nat 1), ("key_sound", SettingVal.nat 1),
     ("over_power_protection", SettingVal.rat 0),
     ("over_temperature_protection", SettingVal.nat 80),
     ("reverse_protection", SettingVal.bool true),
     ("power_on_state", SettingVal.nat 0)]
    rfl (by decide) (by simp [get_settings, le16])
